import Mathlib

/-!
Verification of the Aegis Orchestrator result-interpretation core.

This file embeds, in Lean, the pipeline data model and the result
interpretation performed by `OrchestratorApp.process_repository`
(src/agents/orchestrator_app.py) together with the exit-code mapping of
`main` (src/main.py), and proves or refutes the specification's claims
about them.
-/

namespace Aegis

/-- Modelled from the spec: the `WorkflowState` enum is defined in
`agents/workflow.py`, which is not part of the visible sources; the spec's
stage enum is `INITIALIZE, SCAN, RESEARCH, FIX, REVIEW, PUBLISH, SUMMARIZE,
COMPLETE` with `ERROR` reachable from every non-terminal state. -/
inductive WorkflowState where
  | INITIALIZE
  | SCAN
  | RESEARCH
  | FIX
  | REVIEW
  | PUBLISH
  | SUMMARIZE
  | COMPLETE
  | ERROR
  deriving DecidableEq, Repr

/-- Modelled from the spec: the Python enum member `.value` (used by
`process_repository` as `final_state["current_state"].value`) names the
stage reached; the exact value strings live in the missing
`agents/workflow.py`, so each member is given its stage's name. -/
def WorkflowState.value : WorkflowState → String
  | .INITIALIZE => "initialize"
  | .SCAN => "scan"
  | .RESEARCH => "research"
  | .FIX => "fix"
  | .REVIEW => "review"
  | .PUBLISH => "publish"
  | .SUMMARIZE => "summarize"
  | .COMPLETE => "complete"
  | .ERROR => "error"

/-- The `AegisState` TypedDict from `agents/workflow.py`, with exactly the
twelve keys that `process_repository` writes into its `initial_state`
literal. Every key is always present (the TypedDict is total and the
initial state sets all of them), so the dict is a structure; keys whose
values may be Python `None` are `Option`s. Findings, fixes, messages and
research notes are opaque payloads to the orchestrator (only their lengths
are read), embedded as `String`s. -/
structure AegisState where
  repo_url : String
  repo_path : Option String
  branch_name : Option String
  current_state : WorkflowState
  messages : List String
  error_message : Option String
  vulnerabilities : List String
  research_results : List (String × String)
  fixes : List String
  reviewed_fixes : List String
  pull_request_url : Option String
  summary_report : Option String
  deriving DecidableEq, Repr

/-- The nested `pull_request` dict built in the success branch of
`process_repository`. -/
structure PullRequestInfo where
  url : Option String
  status : String
  deriving DecidableEq, Repr

/-- The result dictionary returned by `process_repository`. The three
branches of the Python code return dicts with different key sets, so every
key that appears in only some branches is an outer `Option`: `none` means
the key is absent from the returned dict, `some v` that the key is present
with value `v` (which may itself be Python `None`, hence the nested
`Option`s). `status` and `fixes_applied` appear in every branch. -/
structure ProcessResult where
  status : String
  error : Option (Option String)
  fixes_applied : Nat
  vulnerabilities_found : Option Nat
  pull_request : Option PullRequestInfo
  summary_report : Option (Option String)
  workflow_state : Option String
  final_state : Option String
  message : Option String
  deriving DecidableEq, Repr

/-- Python `dict.get(key, default)`: the stored value when the key is
present — even when that stored value is `None` — and the default only when
the key is absent. In `process_repository` every `.get` is applied to the
`AegisState` TypedDict, whose keys are all present (the initial state sets
every key and the LangGraph channels preserve them), so `present` is `true`
at every call site and the default is dead. -/
def pyGetWithDefault (present : Bool) (stored : Option String) (dflt : String) :
    Option String :=
  if present then stored else some dflt

/-- The initial workflow state literal built by
`OrchestratorApp.process_repository` (src/agents/orchestrator_app.py,
lines 61-74). The single message is the `HumanMessage` content. -/
def initial_state (repo_url : String) : AegisState :=
  { repo_url := repo_url
    repo_path := none
    branch_name := none
    current_state := WorkflowState.INITIALIZE
    messages := ["Analyze repository: " ++ repo_url]
    error_message := none
    vulnerabilities := []
    research_results := []
    fixes := []
    reviewed_fixes := []
    pull_request_url := none
    summary_report := none }

/-- The result interpretation of `process_repository` (lines 80-108): the
`if`/`elif`/`else` over `final_state["current_state"]` that maps the
terminal record to the `error`, `success` or `incomplete` result dict. -/
def interpretFinalState (final_state : AegisState) : ProcessResult :=
  if final_state.current_state = WorkflowState.ERROR then
    { status := "error"
      error := some (pyGetWithDefault true final_state.error_message
        "Unknown error occurred")
      fixes_applied := 0
      vulnerabilities_found := none
      pull_request := none
      summary_report := none
      workflow_state := none
      final_state := none
      message := none }
  else if final_state.current_state = WorkflowState.COMPLETE then
    { status := "success"
      error := none
      fixes_applied := final_state.reviewed_fixes.length
      vulnerabilities_found := some final_state.vulnerabilities.length
      pull_request := some
        { url := final_state.pull_request_url
          status := if final_state.pull_request_url.isSome then "created"
            else "not_created" }
      summary_report := some final_state.summary_report
      workflow_state := some final_state.current_state.value
      final_state := none
      message := none }
  else
    { status := "incomplete"
      error := none
      fixes_applied := final_state.reviewed_fixes.length
      vulnerabilities_found := some final_state.vulnerabilities.length
      pull_request := none
      summary_report := none
      workflow_state := none
      final_state := some final_state.current_state.value
      message := some "Workflow did not complete all steps" }

/-- `OrchestratorApp.process_repository` (lines 47-116). The LangGraph
invocation `self.workflow.invoke(initial_state)` is embedded as a function
from the initial state to `Except String AegisState`: `Except.ok` when the
workflow returns a terminal record, `Except.error msg` when it raises an
exception with message `msg` (the only fallible statement in the `try`
block); the `except` clause (lines 110-116) returns the fallback error
dict. -/
def process_repository (repo_url : String)
    (workflow_invoke : AegisState → Except String AegisState) : ProcessResult :=
  match workflow_invoke (initial_state repo_url) with
  | Except.ok final_state => interpretFinalState final_state
  | Except.error e =>
    { status := "error"
      error := some (some ("Workflow execution failed: " ++ e))
      fixes_applied := 0
      vulnerabilities_found := none
      pull_request := none
      summary_report := none
      workflow_state := none
      final_state := none
      message := none }

/-- The exit-code mapping at the end of `main` (src/main.py, lines
122-128): `0` when `result["status"] == "success"`, `1` when it is
`"error"`, `2` otherwise. -/
def mainResultExitCode (result : ProcessResult) : Nat :=
  if result.status = "success" then 0
  else if result.status = "error" then 1
  else 2

/-- Sample terminal record at `COMPLETE` with non-trivial contents. -/
def recComplete : AegisState :=
  { repo_url := "https://example.com/repo.git"
    repo_path := some "/tmp/repo"
    branch_name := some "aegis-fixes"
    current_state := WorkflowState.COMPLETE
    messages := ["Analyze repository: https://example.com/repo.git"]
    error_message := none
    vulnerabilities := ["v1", "v2"]
    research_results := [("v1", "note1"), ("v2", "note2")]
    fixes := ["f1", "f2"]
    reviewed_fixes := ["f1"]
    pull_request_url := some "https://example.com/pr/1"
    summary_report := some "report" }

/-- Sample terminal record at `ERROR` with a message and with non-empty
vulnerability and fix lists. -/
def recError : AegisState :=
  { repo_url := "https://example.com/repo.git"
    repo_path := some "/tmp/repo"
    branch_name := none
    current_state := WorkflowState.ERROR
    messages := ["Analyze repository: https://example.com/repo.git"]
    error_message := some "clone failed"
    vulnerabilities := ["v1"]
    research_results := []
    fixes := ["f1"]
    reviewed_fixes := ["f1"]
    pull_request_url := none
    summary_report := none }

/-- Sample terminal record at `ERROR` whose `error_message` is `None`. -/
def recErrorNoMsg : AegisState :=
  { repo_url := "https://example.com/repo.git"
    repo_path := none
    branch_name := none
    current_state := WorkflowState.ERROR
    messages := ["Analyze repository: https://example.com/repo.git"]
    error_message := none
    vulnerabilities := []
    research_results := []
    fixes := []
    reviewed_fixes := []
    pull_request_url := none
    summary_report := none }

/-- Sample terminal record stuck at `SCAN` (neither COMPLETE nor ERROR). -/
def recScan : AegisState :=
  { repo_url := "https://example.com/repo.git"
    repo_path := some "/tmp/repo"
    branch_name := none
    current_state := WorkflowState.SCAN
    messages := ["Analyze repository: https://example.com/repo.git"]
    error_message := none
    vulnerabilities := []
    research_results := []
    fixes := []
    reviewed_fixes := []
    pull_request_url := none
    summary_report := none }

/-- Claim C1: the result interpretation in `process_repository` is total
over `current_state` and the three outcome branches are mutually exclusive:
the status is `error` exactly on `ERROR` records, `success` exactly on
`COMPLETE` records, `incomplete` exactly on everything else, and every
record gets exactly one of the three statuses. -/
theorem interpretation_total_and_exclusive (r : AegisState) :
    ((interpretFinalState r).status = "success" ∨
      (interpretFinalState r).status = "error" ∨
      (interpretFinalState r).status = "incomplete")
    ∧ ((interpretFinalState r).status = "error" ↔
        r.current_state = WorkflowState.ERROR)
    ∧ ((interpretFinalState r).status = "success" ↔
        r.current_state = WorkflowState.COMPLETE)
    ∧ ((interpretFinalState r).status = "incomplete" ↔
        (r.current_state ≠ WorkflowState.ERROR ∧
          r.current_state ≠ WorkflowState.COMPLETE)) := by
  cases h : r.current_state <;>
    simp [interpretFinalState, h]

/-- Claim C2: a terminal record at `COMPLETE` is mapped to outcome
`success` with `fixes_applied` the length of its `reviewed_fixes`,
`vulnerabilities_found` the length of its `vulnerabilities`, and carrying
the record's `pull_request_url` (inside the nested `pull_request` dict) and
`summary_report`. -/
theorem complete_maps_to_success (r : AegisState)
    (h : r.current_state = WorkflowState.COMPLETE) :
    (interpretFinalState r).status = "success"
    ∧ (interpretFinalState r).fixes_applied = r.reviewed_fixes.length
    ∧ (interpretFinalState r).vulnerabilities_found =
        some r.vulnerabilities.length
    ∧ (interpretFinalState r).pull_request.map PullRequestInfo.url =
        some r.pull_request_url
    ∧ (interpretFinalState r).summary_report = some r.summary_report := by
  simp [interpretFinalState, h]

/-- Witness for C2: the claim applied at the concrete `COMPLETE` record
`recComplete`. -/
theorem complete_maps_to_success_witness :
    recComplete.current_state = WorkflowState.COMPLETE
    ∧ ((interpretFinalState recComplete).status = "success"
      ∧ (interpretFinalState recComplete).fixes_applied =
          recComplete.reviewed_fixes.length
      ∧ (interpretFinalState recComplete).vulnerabilities_found =
          some recComplete.vulnerabilities.length
      ∧ (interpretFinalState recComplete).pull_request.map
          PullRequestInfo.url = some recComplete.pull_request_url
      ∧ (interpretFinalState recComplete).summary_report =
          some recComplete.summary_report) :=
  ⟨rfl, complete_maps_to_success recComplete rfl⟩

/-- Claim C3 (code evaluated at the failing input): on a terminal record at
`ERROR` whose `error_message` is Python `None`, the returned dict has
status `error` but its `error` key holds `None`, not the non-empty fallback
string: `final_state.get("error_message", "Unknown error occurred")`
returns the stored `None` because the TypedDict key is present, so the
default — the code's own evidence of intent — is unreachable. -/
theorem error_none_message_yields_none_payload :
    (interpretFinalState recErrorNoMsg).status = "error"
    ∧ (interpretFinalState recErrorNoMsg).error = some none := by
  constructor <;> rfl

/-- Counterexample for C4: at the concrete record stuck at `SCAN`, the
`incomplete` payload's message is "Workflow did not complete all steps",
not the spec's "pipeline did not complete all stages". -/
theorem incomplete_message_text_differs :
    (interpretFinalState recScan).status = "incomplete"
    ∧ (interpretFinalState recScan).message =
        some "Workflow did not complete all steps"
    ∧ (interpretFinalState recScan).message ≠
        some "pipeline did not complete all stages" := by
  refine ⟨rfl, rfl, ?_⟩
  decide

/-- Claim C4 as amended: a terminal record whose state is neither
`COMPLETE` nor `ERROR` is mapped to outcome `incomplete` carrying the name
of the stage reached (the enum member's value) and the message "Workflow
did not complete all steps". -/
theorem incomplete_carries_stage_and_message (r : AegisState)
    (h1 : r.current_state ≠ WorkflowState.ERROR)
    (h2 : r.current_state ≠ WorkflowState.COMPLETE) :
    (interpretFinalState r).status = "incomplete"
    ∧ (interpretFinalState r).final_state = some r.current_state.value
    ∧ (interpretFinalState r).message =
        some "Workflow did not complete all steps" := by
  simp [interpretFinalState, h1, h2]

/-- Witness for the amended C4: applied at the record stuck at `SCAN`. -/
theorem incomplete_carries_stage_and_message_witness :
    recScan.current_state ≠ WorkflowState.ERROR
    ∧ recScan.current_state ≠ WorkflowState.COMPLETE
    ∧ ((interpretFinalState recScan).status = "incomplete"
      ∧ (interpretFinalState recScan).final_state =
          some recScan.current_state.value
      ∧ (interpretFinalState recScan).message =
          some "Workflow did not complete all steps") :=
  ⟨by decide, by decide,
    incomplete_carries_stage_and_message recScan (by decide) (by decide)⟩

/-- Counterexample for C5: with a workflow returning the `ERROR` record
`recError`, the dict returned by `process_repository` has no
`vulnerabilities_found` key at all, refuting the claim that every outcome
carries an integer `vulnerabilitiesFound` field. -/
theorem error_result_lacks_vulnerability_count :
    (process_repository "https://example.com/repo.git"
        (fun _ => Except.ok recError)).status = "error"
    ∧ (process_repository "https://example.com/repo.git"
        (fun _ => Except.ok recError)).vulnerabilities_found = none := by
  constructor <;> rfl

/-- Claim C5 as amended: every result dict carries the integer
`fixes_applied` (a total field of the embedding because every branch of
the code writes it), and it carries an integer `vulnerabilities_found`
exactly when the outcome is not `error` — the two `error` branches omit
that key. -/
theorem result_count_fields (repo_url : String)
    (workflow_invoke : AegisState → Except String AegisState) :
    (process_repository repo_url workflow_invoke).vulnerabilities_found.isSome
      ↔ (process_repository repo_url workflow_invoke).status ≠ "error" := by
  unfold process_repository
  cases workflow_invoke (initial_state repo_url) with
  | error e => simp
  | ok final_state =>
    cases h : final_state.current_state <;>
      simp [interpretFinalState, h]

/-- Claim C6: whenever the workflow invocation raises, `process_repository`
catches the exception and returns outcome `error` whose `error` key holds
the non-empty message "Workflow execution failed: " followed by the
exception text; no exception propagates (the embedding is a total
function). -/
theorem exception_caught_as_error (repo_url : String) (e : String) :
    (process_repository repo_url (fun _ => Except.error e)).status = "error"
    ∧ (process_repository repo_url (fun _ => Except.error e)).error =
        some (some ("Workflow execution failed: " ++ e))
    ∧ 0 < ("Workflow execution failed: " ++ e).length := by
  refine ⟨rfl, rfl, ?_⟩
  have h : ("Workflow execution failed: " ++ e).length
      = "Workflow execution failed: ".length + e.length := by
    simp [String.length_append]
  have h0 : "Workflow execution failed: ".length = 27 := rfl
  omega

/-- Claim C7: the result interpretation is deterministic — it is a pure
function of the terminal record, so two runs of the mapping on the same
record yield identical payloads. -/
theorem interpretation_deterministic (r1 r2 : AegisState) (h : r1 = r2) :
    interpretFinalState r1 = interpretFinalState r2 := by
  rw [h]

/-- Witness for C7: two interpretations of the concrete record
`recComplete` agree. -/
theorem interpretation_deterministic_witness :
    recComplete = recComplete
    ∧ interpretFinalState recComplete = interpretFinalState recComplete :=
  ⟨rfl, interpretation_deterministic recComplete recComplete rfl⟩

/-- Claim C8: for every repository URL, the initial record built by
`process_repository` starts at `INITIALIZE`, carries the given URL, has
empty `vulnerabilities`, `fixes`, `reviewed_fixes` and `research_results`,
and leaves `repo_path`, `branch_name`, `error_message`, `pull_request_url`
and `summary_report` unset. -/
theorem initial_record_shape (url : String) :
    (initial_state url).current_state = WorkflowState.INITIALIZE
    ∧ (initial_state url).repo_url = url
    ∧ (initial_state url).vulnerabilities = []
    ∧ (initial_state url).fixes = []
    ∧ (initial_state url).reviewed_fixes = []
    ∧ (initial_state url).research_results = []
    ∧ (initial_state url).repo_path = none
    ∧ (initial_state url).branch_name = none
    ∧ (initial_state url).error_message = none
    ∧ (initial_state url).pull_request_url = none
    ∧ (initial_state url).summary_report = none := by
  repeat constructor

/-- Claim C9: the `error` branch of the result interpretation reports
`fixes_applied = 0` and contains no `vulnerabilities_found` key, whatever
`reviewed_fixes` and `vulnerabilities` the `ERROR` record holds. -/
theorem error_payload_fixed_counts (r : AegisState)
    (h : r.current_state = WorkflowState.ERROR) :
    (interpretFinalState r).fixes_applied = 0
    ∧ (interpretFinalState r).vulnerabilities_found = none := by
  simp [interpretFinalState, h]

/-- Witness for C9: applied at the concrete `ERROR` record `recError`,
whose `reviewed_fixes` and `vulnerabilities` are non-empty. -/
theorem error_payload_fixed_counts_witness :
    recError.current_state = WorkflowState.ERROR
    ∧ recError.reviewed_fixes ≠ []
    ∧ recError.vulnerabilities ≠ []
    ∧ ((interpretFinalState recError).fixes_applied = 0
      ∧ (interpretFinalState recError).vulnerabilities_found = none) :=
  ⟨rfl, by decide, by decide, error_payload_fixed_counts recError rfl⟩

/-- Claim C10: `main` exits with code 0 exactly when the result status is
`success`, with code 1 exactly when it is `error`, and with code 2 exactly
when it is any other status. -/
theorem main_exit_code_mapping (result : ProcessResult) :
    (mainResultExitCode result = 0 ↔ result.status = "success")
    ∧ (mainResultExitCode result = 1 ↔ result.status = "error")
    ∧ (mainResultExitCode result = 2 ↔
        (result.status ≠ "success" ∧ result.status ≠ "error")) := by
  unfold mainResultExitCode
  by_cases h1 : result.status = "success" <;>
    by_cases h2 : result.status = "error" <;>
    simp [h1, h2]

end Aegis
